import Mathlib

/-!
Shallow embedding of the GameLift server SDK session-lifecycle engine.

Sources embedded here:
  - `src/unnamed/part_009` — class `GameLiftServerState` (the session
    lifecycle state machine: `processReady`, `processEnding`,
    `activateGameSession`, `terminateGameSession`, `acceptPlayerSession`,
    `removePlayerSession`, `updatePlayerSessionCreationPolicy`,
    `getGameSessionId`, `healthCheck`, `reportHealth`, and the inbound
    handlers `onStartGameSessionHandler`, `onUpdateGameSessionHandler`,
    `onTerminateSessionHandler`).
  - `src/lib/network.ts` — class `Network` (`emit`'s acknowledgment
    callback, `parseJsonDataIntoMessage`, `onTerminateProcess`,
    `terminateGameSession`).
  - `src/lib/exceptions.ts` — the error taxonomy.

Modelling conventions: the JavaScript fields that start `undefined` are
`Option`s (or `Bool`s that start `false` where the field is only ever read
in boolean position); JavaScript string truthiness (`!s` is true for
`undefined` and for `""`) is `isFalsyStr`; the opaque message codec is
quotiented into `RawResponse` (a payload is the empty string, a JSON text
that the codec turns into a message object, or a text on which the codec
fails); promise-based methods become pure functions that take the
acknowledgment outcome as an argument and return the new state together
with the list of outbound messages, or the raised error.
-/

namespace GameLift

/-- The error taxonomy of `src/lib/exceptions.ts` plus the
`ServiceCallFailedError` of `src/lib/network.ts` (which carries the
optional message given to its constructor). -/
inductive GameLiftError where
  | notInitError
  | alreadyInitError
  | gameLiftServerNotInitError
  | processNotReady
  | noGameSession
  | serviceCallFailed (message : Option String)
  deriving DecidableEq

/-- `newPlayerSessionCreationPolicy` values. -/
inductive PlayerSessionCreationPolicy where
  | acceptAll
  | denyAll
  deriving DecidableEq

/-- Outbound messages sent through `Network` — one constructor per emit
site used by the state machine (`src/lib/network.ts`). -/
inductive OutMsg where
  | processReady (port : Nat) (logPaths : List String)
  | processEnding
  | reportHealth (healthy : Bool)
  | gameSessionActivate (gameSessionId : String)
  | gameSessionTerminate (gameSessionId : String)
  | acceptPlayerSession (playerSessionId gameSessionId : String)
  | removePlayerSession (playerSessionId gameSessionId : String)
  | updatePlayerSessionCreationPolicy
      (gameSessionId : String) (policy : PlayerSessionCreationPolicy)
  deriving DecidableEq

/-- JavaScript string truthiness of an optional string field: `!x` is
true when the field is `undefined` or the empty string. -/
def isFalsyStr : Option String → Bool
  | none => true
  | some s => s.isEmpty

/-- The mutable fields of `GameLiftServerState` (`src/unnamed/part_009`).
`networkingIsSet` is whether `this.networking` has been assigned;
`socketConnected` is `this.networking.connected()`. The four callback
fields are modelled by whether a callback is registered (`undefined`
versus a function); `healthMonitorStarted` is whether `healthCheck()` has
installed its interval. -/
structure GameLiftServerState where
  networkingIsSet : Bool := false
  socketConnected : Bool := false
  processReadyFlag : Bool := false
  gameSessionId : Option String := none
  terminationTime : Option ℚ := none
  onStartGameSessionRegistered : Bool := false
  onUpdateGameSessionRegistered : Bool := false
  onProcessTerminateRegistered : Bool := false
  onHealthCheckRegistered : Bool := false
  healthMonitorStarted : Bool := false
  deriving DecidableEq

/-- The freshly constructed instance: every field `undefined`. -/
def initialState : GameLiftServerState := {}

namespace GameLiftServerState

/-- `assertNetworkInitialized` (part_009, lines 702-709): the networking
member is set and its socket is connected. -/
def assertNetworkInitialized (s : GameLiftServerState) : Bool :=
  s.networkingIsSet && s.socketConnected

/-- Result of a client-initiated operation: the state after the call
(JavaScript mutations persist even when the call then throws) together
with either the raised error or the outbound messages sent. -/
abbrev OpResult := GameLiftServerState × Except GameLiftError (List OutMsg)

/-- The argument record of `processReady` (`ProcessParameters`), with the
optional callbacks modelled by whether they were supplied. -/
structure ProcessParameters where
  port : Nat
  logPaths : List String := []
  hasOnUpdateGameSession : Bool := false
  hasOnProcessTerminate : Bool := false
  hasOnHealthCheck : Bool := false
  deriving DecidableEq

/-- `processReady` (part_009, lines 286-309). Sets the ready flag and
stores the callbacks (defaulting `onHealthCheck`) before any check; then
requires the network, sends the readiness declaration (the emit may be
acknowledged as failed — `ackOk`), and only on success starts the health
monitor. -/
def processReady (s : GameLiftServerState) (p : ProcessParameters)
    (ackOk : Bool) : OpResult :=
  let s1 := { s with
    processReadyFlag := true
    onStartGameSessionRegistered := true
    onUpdateGameSessionRegistered := p.hasOnUpdateGameSession
    onProcessTerminateRegistered := p.hasOnProcessTerminate
    -- `this.onHealthCheck = processParameters.onHealthCheck || this.defaultHealthCheck`
    onHealthCheckRegistered := true }
  if s1.assertNetworkInitialized = false then
    (s1, .error .gameLiftServerNotInitError)
  else if ackOk = false then
    (s1, .error (.serviceCallFailed none))
  else
    ({ s1 with healthMonitorStarted := true },
      .ok [OutMsg.processReady p.port p.logPaths])

/-- `processEnding` (part_009, lines 316-325): clears the ready flag
before the network check, then sends the shutdown notification. -/
def processEnding (s : GameLiftServerState) (ackOk : Bool) : OpResult :=
  let s1 := { s with processReadyFlag := false }
  if s1.assertNetworkInitialized = false then
    (s1, .error .gameLiftServerNotInitError)
  else if ackOk = false then
    (s1, .error (.serviceCallFailed none))
  else
    (s1, .ok [OutMsg.processEnding])

/-- `activateGameSession` (part_009, lines 377-393): ready flag, then
network, then active session. -/
def activateGameSession (s : GameLiftServerState) : OpResult :=
  if s.processReadyFlag = false then
    (s, .error .processNotReady)
  else if s.assertNetworkInitialized = false then
    (s, .error .gameLiftServerNotInitError)
  else if isFalsyStr s.gameSessionId = true then
    (s, .error .noGameSession)
  else
    (s, .ok [OutMsg.gameSessionActivate (s.gameSessionId.getD "")])

/-- `terminateGameSession` (part_009, lines 400-410): network, then
active session; sends the notice tagged with the current id and mutates
nothing. -/
def terminateGameSession (s : GameLiftServerState) : OpResult :=
  if s.assertNetworkInitialized = false then
    (s, .error .gameLiftServerNotInitError)
  else if isFalsyStr s.gameSessionId = true then
    (s, .error .noGameSession)
  else
    (s, .ok [OutMsg.gameSessionTerminate (s.gameSessionId.getD "")])

/-- `acceptPlayerSession` (part_009, lines 417-432): network, then active
session; no ready-flag check. -/
def acceptPlayerSession (s : GameLiftServerState)
    (playerSessionId : String) : OpResult :=
  if s.assertNetworkInitialized = false then
    (s, .error .gameLiftServerNotInitError)
  else if isFalsyStr s.gameSessionId = true then
    (s, .error .noGameSession)
  else
    (s, .ok [OutMsg.acceptPlayerSession playerSessionId
      (s.gameSessionId.getD "")])

/-- `removePlayerSession` (part_009, lines 441-454). -/
def removePlayerSession (s : GameLiftServerState)
    (playerSessionId : String) : OpResult :=
  if s.assertNetworkInitialized = false then
    (s, .error .gameLiftServerNotInitError)
  else if isFalsyStr s.gameSessionId = true then
    (s, .error .noGameSession)
  else
    (s, .ok [OutMsg.removePlayerSession playerSessionId
      (s.gameSessionId.getD "")])

/-- `updatePlayerSessionCreationPolicy` (part_009, lines 486-501). -/
def updatePlayerSessionCreationPolicy (s : GameLiftServerState)
    (policy : PlayerSessionCreationPolicy) : OpResult :=
  if s.assertNetworkInitialized = false then
    (s, .error .gameLiftServerNotInitError)
  else if isFalsyStr s.gameSessionId = true then
    (s, .error .noGameSession)
  else
    (s, .ok [OutMsg.updatePlayerSessionCreationPolicy
      (s.gameSessionId.getD "") policy])

/-- `getGameSessionId` (part_009, lines 210-216). -/
def getGameSessionId (s : GameLiftServerState) :
    Except GameLiftError String :=
  if isFalsyStr s.gameSessionId = true then .error .noGameSession
  else .ok (s.gameSessionId.getD "")

end GameLiftServerState

/-- Observable actions of an inbound handler, in program order: calls to
the channel acknowledgment, synchronous invocations of user callbacks,
and a TypeError escaping the handler (a call on an `undefined` callback). -/
inductive HandlerEvent where
  | ack (success : Bool)
  | invokeStartCallback (gameSessionId : String)
  | invokeUpdateCallback
  | invokeTerminateCallback
  | threwTypeError
  deriving DecidableEq

namespace GameLiftServerState

/-- `onStartGameSessionHandler` (part_009, lines 604-617): when not
ready it acks `false` but does not return, so it still stores the session
id, calls the user callback (a TypeError if none is registered — the
mutation has already happened) and acks `true`. -/
def onStartGameSessionHandler (s : GameLiftServerState)
    (gameSessionId : String) : GameLiftServerState × List HandlerEvent :=
  let pre := if s.processReadyFlag = false then [HandlerEvent.ack false] else []
  let s1 := { s with gameSessionId := some gameSessionId }
  if s.onStartGameSessionRegistered = true then
    (s1, pre ++ [HandlerEvent.invokeStartCallback gameSessionId,
      HandlerEvent.ack true])
  else
    (s1, pre ++ [HandlerEvent.threwTypeError])

/-- `onUpdateGameSessionHandler` (part_009, lines 638-650): the same
not-ready quirk; invokes the optional callback when registered, then
acks `true`. No state is mutated. -/
def onUpdateGameSessionHandler (s : GameLiftServerState) :
    GameLiftServerState × List HandlerEvent :=
  let pre := if s.processReadyFlag = false then [HandlerEvent.ack false] else []
  let mid := if s.onUpdateGameSessionRegistered = true
    then [HandlerEvent.invokeUpdateCallback] else []
  (s, pre ++ mid ++ [HandlerEvent.ack true])

/-- `onTerminateSessionHandler` (part_009, lines 664-675): a no-op when
not ready; otherwise records the termination time and invokes the
optional callback. -/
def onTerminateSessionHandler (s : GameLiftServerState)
    (terminationTime : ℚ) : GameLiftServerState × List HandlerEvent :=
  if s.processReadyFlag = false then (s, [])
  else
    ({ s with terminationTime := some terminationTime },
      if s.onProcessTerminateRegistered = true
        then [HandlerEvent.invokeTerminateCallback] else [])

end GameLiftServerState

/-! ### The `Network` RPC layer (`src/lib/network.ts`)

The wire payload handed to an acknowledgment callback is an arbitrary
JSON text; the codec (protobufjs) is external, so payloads are quotiented
by how `JSON.parse` plus `Message.fromObject` treat them:
`emptyText` is the empty string (falsy, and `JSON.parse` throws on it);
`jsonObj o` is a text that the codec decodes into a message whose fields
are those of `o` (absent fields read back as protobuf defaults);
`malformed` is a non-empty text on which the codec fails. -/

/-- Fields of a decoded JSON payload object that this engine reads. -/
structure JsonObj where
  status : Option String := none
  errorMessage : Option String := none
  terminationTime : Option ℚ := none
  deriving DecidableEq

/-- A raw acknowledgment payload, quotiented by the external codec. -/
inductive RawResponse where
  | emptyText
  | jsonObj (o : JsonObj)
  | malformed
  deriving DecidableEq

/-- The decoded `GameLiftResponse` envelope: protobuf string fields read
back as `""` when absent. -/
structure GameLiftResponseMsg where
  status : String
  errorMessage : String
  deriving DecidableEq

/-- JavaScript string truthiness of the raw payload argument itself
(`!response`): true for `undefined` and for the empty string. -/
def isFalsyResponse : Option RawResponse → Bool
  | none => true
  | some RawResponse.emptyText => true
  | some _ => false

namespace Network

/-- `parseJsonDataIntoMessage` (`src/lib/network.ts`, lines 608-638)
applied to `GameLiftResponse`: `JSON.parse` / `fromObject` failures are
caught inside and `null` (here `none`) is returned — the function never
throws. `undefined` data also lands in the catch (`JSON.parse(undefined)`
throws) and yields `null`. -/
def parseJsonDataIntoMessageGameLiftResponse :
    Option RawResponse → Option GameLiftResponseMsg
  | some (RawResponse.jsonObj o) =>
      some ⟨o.status.getD "", o.errorMessage.getD ""⟩
  | _ => none

/-- The single quote character, used by the `ServiceCallFailedError`
constructor when it interpolates the message. -/
def sq : String := String.mk [Char.ofNat 39]

/-- The `message` property of a constructed `ServiceCallFailedError`
(`src/lib/network.ts`, lines 46-54): the plain prefix when the argument
is falsy (`undefined` or `""`), otherwise the prefix with the quoted
message appended. -/
def serviceCallFailedMessageText : Option String → String
  | none => "GameLift service call failed"
  | some msg =>
      if msg.isEmpty then "GameLift service call failed"
      else "GameLift service call failed: " ++ sq ++ msg ++ sq

/-- How the acknowledgment callback of one `emit` call settles the
returned promise. `resolvedWithMessage none` is `resolve(null)` — the
expected-response decode failed and `parseJsonDataIntoMessage` returned
`null`, which is resolved as-is. `uncaughtTypeError` means an exception
escaped the callback, so the promise never settles. -/
inductive EmitOutcome where
  | resolvedWithNull
  | resolvedWithMessage (decoded : Option JsonObj)
  | rejectedServiceCallFailed (message : Option String)
  | uncaughtTypeError
  deriving DecidableEq

/-- Whether the outcome is a rejection with `ServiceCallFailedError`. -/
def EmitOutcome.isServiceCallRejection : EmitOutcome → Bool
  | EmitOutcome.rejectedServiceCallFailed _ => true
  | _ => false

/-- Whether the outcome resolves the promise. -/
def EmitOutcome.isResolved : EmitOutcome → Bool
  | EmitOutcome.resolvedWithNull => true
  | EmitOutcome.resolvedWithMessage _ => true
  | _ => false

/-- The acknowledgment callback of `emit` (`src/lib/network.ts`, lines
537-600) as a function of the inputs the channel supplies:
`hasResponseMessage` is whether `emit` was given an expected response
type, and `(success, response)` are the callback arguments.

On failure the code parses the payload as a `GameLiftResponse` and then,
whenever `response` is neither `undefined` nor `null`, reads
`.errorMessage` off the parse result — which is `null` when the payload
did not decode, so that read throws a TypeError instead of rejecting.
On success with an expected response type, a falsy payload rejects with
"no response received" and otherwise the payload is decoded and resolved
(the decode result may itself be `null`). -/
def emitAck (hasResponseMessage success : Bool)
    (response : Option RawResponse) : EmitOutcome :=
  if success = false then
    match parseJsonDataIntoMessageGameLiftResponse response, response with
    | _, none => EmitOutcome.rejectedServiceCallFailed none
    | some m, some _ => EmitOutcome.rejectedServiceCallFailed (some m.errorMessage)
    | none, some _ => EmitOutcome.uncaughtTypeError
  else if hasResponseMessage = true then
    if isFalsyResponse response = true then
      EmitOutcome.rejectedServiceCallFailed (some "no response received")
    else
      EmitOutcome.resolvedWithMessage
        (match response with
          | some (RawResponse.jsonObj o) => some o
          | _ => none)
  else
    EmitOutcome.resolvedWithNull

/-- What the `TerminateProcess` dispatch observably does. -/
inductive TerminateDispatchOutcome where
  | handlerInvoked (terminationTime : ℚ)
  | threwTypeError
  deriving DecidableEq

/-- `parseJsonDataIntoMessage` applied to `TerminateProcess`: as above it
catches all codec failures internally and returns `null` — the `.error`
side of the `Except` (an exception escaping it) is never produced. A
decoded object with no `terminationTime` field reads back the protobuf
default `0`. -/
def parseJsonDataIntoMessageTerminateProcess :
    RawResponse → Except Unit (Option ℚ)
  | RawResponse.jsonObj o => Except.ok (some (o.terminationTime.getD 0))
  | _ => Except.ok none

/-- `onTerminateProcess` (`src/lib/network.ts`, lines 257-277). The
`try`/`catch` around the parse call substitutes a default termination
time of `Date.now() / 1000 + 4.5 * 60` — but only when the parse call
throws, which it never does: an undecodable payload makes it return
`null`, and reading `.terminationTime` off `null` then throws a
TypeError before the handler is reached. `now` is `Date.now()` in
milliseconds. -/
def onTerminateProcessDispatch (now : ℚ) (data : RawResponse) :
    TerminateDispatchOutcome :=
  match parseJsonDataIntoMessageTerminateProcess data with
  | Except.error _ => TerminateDispatchOutcome.handlerInvoked (now / 1000 + 4.5 * 60)
  | Except.ok none => TerminateDispatchOutcome.threwTypeError
  | Except.ok (some t) => TerminateDispatchOutcome.handlerInvoked t

/-- `Network.terminateGameSession` (`src/lib/network.ts`, lines 361-370):
the message sent for a termination notice. -/
def terminateGameSessionMsg (gameSessionId : String) : OutMsg :=
  OutMsg.gameSessionTerminate gameSessionId

end Network

/-! ### The health monitor (`part_009`, `healthCheck` / `reportHealth`)

`reportHealth` races the user health predicate against a deadline timer
of the same cadence (`HEALTHCHECK_TIMEOUT`); `healthCheck` runs it from a
repeating interval that cancels itself at the first tick that observes
`processReadyFlag == false`. The asynchronous environment of one tick is
the time at which the predicate settles, how it settles (a boolean, or a
rejection), and whether the report emit fails; the deadline timer was
installed before the predicate was invoked, so at equal firing times the
deadline wins the race. -/

/-- How a health-predicate promise settles: with a boolean, or by
rejecting (the predicate threw). -/
inductive HealthPredicateOutcome where
  | resolves (healthy : Bool)
  | rejects
  deriving DecidableEq

/-- Environment of one `reportHealth` tick. -/
structure HealthTickEnv where
  predDelay : Nat
  predOutcome : HealthPredicateOutcome
  reportFails : Bool
  deriving DecidableEq

/-- The winner of `Promise.race([onHealthCheck(), timerPromise])`
(part_009, lines 348-363): the predicate's own settlement when it beats
the deadline, and `false` once the deadline fires. -/
def healthCheckRace (cadence : Nat) (env : HealthTickEnv) :
    HealthPredicateOutcome :=
  if env.predDelay < cadence then env.predOutcome
  else HealthPredicateOutcome.resolves false

/-- The boolean handed to `networking.reportHealth` by one tick, or
`none` when the race rejected (the `.catch` swallows the rejection and
nothing is reported). A failure of the report call itself is also
swallowed by the same `.catch` and does not change what was reported. -/
def reportHealthReported (cadence : Nat) (env : HealthTickEnv) :
    Option Bool :=
  match healthCheckRace cadence env with
  | HealthPredicateOutcome.resolves healthy => some healthy
  | HealthPredicateOutcome.rejects => none

/-- One tick of the `healthCheck` interval: the ready flag it observes
and the tick's asynchronous environment. -/
structure MonitorTick where
  ready : Bool
  env : HealthTickEnv
  deriving DecidableEq

/-- The `healthCheck` interval loop (part_009, lines 332-340) over a
sequence of ticks: a tick that observes the ready flag runs
`reportHealth` and the interval continues; the first tick that observes
`ready == false` clears the interval and no further tick runs. The
result is the per-tick report values, in order. -/
def healthCheckRun (cadence : Nat) : List MonitorTick → List (Option Bool)
  | [] => []
  | t :: rest =>
    if t.ready = true then
      reportHealthReported cadence t.env :: healthCheckRun cadence rest
    else []

/-! ### Operation traces

A trace interleaves the client-initiated operations, the inbound events
(dispatched by `Network` to the state handlers), and transport state
changes (connect / disconnect of the underlying socket). `step` is the
state effect of each; errors and outbound messages are discarded here
because raised preconditions leave exactly the state the operation
functions return. -/

/-- One client-initiated operation, inbound event, or transport change. -/
inductive TraceOp where
  | clientProcessReady (p : GameLiftServerState.ProcessParameters) (ackOk : Bool)
  | clientProcessEnding (ackOk : Bool)
  | clientActivateGameSession
  | clientTerminateGameSession
  | clientAcceptPlayerSession (playerSessionId : String)
  | clientRemovePlayerSession (playerSessionId : String)
  | clientUpdatePolicy (policy : PlayerSessionCreationPolicy)
  | eventStartGameSession (gameSessionId : String)
  | eventUpdateGameSession
  | eventTerminateProcess (terminationTime : ℚ)
  | transportChange (isSet connected : Bool)
  deriving DecidableEq

/-- The state reached after one trace element. -/
def step (s : GameLiftServerState) : TraceOp → GameLiftServerState
  | TraceOp.clientProcessReady p ackOk => (s.processReady p ackOk).1
  | TraceOp.clientProcessEnding ackOk => (s.processEnding ackOk).1
  | TraceOp.clientActivateGameSession => s.activateGameSession.1
  | TraceOp.clientTerminateGameSession => s.terminateGameSession.1
  | TraceOp.clientAcceptPlayerSession pid => (s.acceptPlayerSession pid).1
  | TraceOp.clientRemovePlayerSession pid => (s.removePlayerSession pid).1
  | TraceOp.clientUpdatePolicy pol => (s.updatePlayerSessionCreationPolicy pol).1
  | TraceOp.eventStartGameSession sid => (s.onStartGameSessionHandler sid).1
  | TraceOp.eventUpdateGameSession => s.onUpdateGameSessionHandler.1
  | TraceOp.eventTerminateProcess t => (s.onTerminateSessionHandler t).1
  | TraceOp.transportChange isSet conn =>
      { s with networkingIsSet := isSet, socketConnected := conn }

/-- The state after a whole trace, run from the fresh instance. -/
def runOps (ops : List TraceOp) : GameLiftServerState :=
  ops.foldl step initialState

/-! ### Concrete states and traces used by witnesses and counterexamples -/

/-- A fresh instance whose transport is connected but on which
`processReady` has never been called. -/
def connectedUnreadyState : GameLiftServerState :=
  { networkingIsSet := true, socketConnected := true }

/-- A connected, ready instance with the mandatory start-session callback
registered (the state right after a successful `processReady`). -/
def readyRegisteredState : GameLiftServerState :=
  { connectedUnreadyState with
    processReadyFlag := true
    onStartGameSessionRegistered := true
    onHealthCheckRegistered := true
    healthMonitorStarted := true }

/-- Parameters of a minimal `processReady` call. -/
def sampleParams : GameLiftServerState.ProcessParameters := { port := 2020 }

/-- Connect, declare readiness, receive a session, then declare shutdown. -/
def startThenEndTrace : List TraceOp :=
  [TraceOp.transportChange true true,
    TraceOp.clientProcessReady sampleParams true,
    TraceOp.eventStartGameSession ("sess-1"),
    TraceOp.clientProcessEnding true]

/-- The decoded failure envelope of the C5 scenario. -/
def badIdEnvelope : JsonObj :=
  { status := some ("ERROR_400"), errorMessage := some ("bad id") }

/-! ### Helper lemmas -/

/-- The only trace element that writes `gameSessionId` is an inbound
start-session event, which overwrites it with the event's id. -/
theorem step_gameSessionId (s : GameLiftServerState) (op : TraceOp) :
    (step s op).gameSessionId =
      match op with
      | TraceOp.eventStartGameSession sid => some sid
      | _ => s.gameSessionId := by
  cases op <;>
    simp only [step, GameLiftServerState.processReady,
      GameLiftServerState.processEnding,
      GameLiftServerState.activateGameSession,
      GameLiftServerState.terminateGameSession,
      GameLiftServerState.acceptPlayerSession,
      GameLiftServerState.removePlayerSession,
      GameLiftServerState.updatePlayerSessionCreationPolicy,
      GameLiftServerState.onStartGameSessionHandler,
      GameLiftServerState.onUpdateGameSessionHandler,
      GameLiftServerState.onTerminateSessionHandler] <;>
    (try split) <;> (try split) <;> (try split) <;> rfl

/-- Folding a trace from any state: the session id is present exactly
when it was already present or some start-session event occurs. -/
theorem foldl_gameSessionId_isSome (ops : List TraceOp) :
    ∀ s : GameLiftServerState,
      ((ops.foldl step s).gameSessionId.isSome = true ↔
        s.gameSessionId.isSome = true ∨
          ∃ sid, TraceOp.eventStartGameSession sid ∈ ops) := by
  induction ops with
  | nil => intro s; simp
  | cons op rest ih =>
    intro s
    rw [List.foldl_cons, ih (step s op)]
    cases op <;> simp [step_gameSessionId, List.mem_cons]

/-! ### Claims -/

/-- C1 counterexample: on a connected instance on which `processReady`
was never called and no session was assigned, `acceptPlayerSession`
fails with `NoGameSessionError`, not with `ProcessNotReadyError`. -/
theorem acceptPlayerSession_unready_not_processNotReady :
    (connectedUnreadyState.acceptPlayerSession ("p-1")).2
        = Except.error GameLiftError.noGameSession ∧
    (connectedUnreadyState.acceptPlayerSession ("p-1")).2
        ≠ Except.error GameLiftError.processNotReady := by
  refine ⟨rfl, ?_⟩
  intro h
  rw [show (connectedUnreadyState.acceptPlayerSession ("p-1")).2
      = Except.error GameLiftError.noGameSession from rfl] at h
  injection h with h
  exact GameLiftError.noConfusion h

/-- C1 amended: none of the four session-bound operations
(`acceptPlayerSession`, `removePlayerSession`, `terminateGameSession`,
`updatePlayerSessionCreationPolicy`) checks the ready flag; on a
connected transport with no active session id each of them fails with
`NoGameSessionError`, whatever the value of `processReadyFlag`. -/
theorem sessionBound_noSession_fail_noGameSession
    (s : GameLiftServerState) (pid : String)
    (pol : PlayerSessionCreationPolicy)
    (hnet : s.assertNetworkInitialized = true)
    (hsid : isFalsyStr s.gameSessionId = true) :
    (s.acceptPlayerSession pid).2 = Except.error GameLiftError.noGameSession ∧
    (s.removePlayerSession pid).2 = Except.error GameLiftError.noGameSession ∧
    s.terminateGameSession.2 = Except.error GameLiftError.noGameSession ∧
    (s.updatePlayerSessionCreationPolicy pol).2
        = Except.error GameLiftError.noGameSession := by
  refine ⟨?_, ?_, ?_, ?_⟩ <;>
    simp [GameLiftServerState.acceptPlayerSession,
      GameLiftServerState.removePlayerSession,
      GameLiftServerState.terminateGameSession,
      GameLiftServerState.updatePlayerSessionCreationPolicy, hnet, hsid]

/-- C1 witness: the amended statement at the connected, never-readied,
sessionless instance. -/
theorem sessionBound_noSession_fail_noGameSession_witness :
    (connectedUnreadyState.acceptPlayerSession ("p-1")).2
        = Except.error GameLiftError.noGameSession ∧
    (connectedUnreadyState.removePlayerSession ("p-1")).2
        = Except.error GameLiftError.noGameSession ∧
    connectedUnreadyState.terminateGameSession.2
        = Except.error GameLiftError.noGameSession ∧
    (connectedUnreadyState.updatePlayerSessionCreationPolicy
        PlayerSessionCreationPolicy.denyAll).2
        = Except.error GameLiftError.noGameSession :=
  sessionBound_noSession_fail_noGameSession connectedUnreadyState ("p-1")
    PlayerSessionCreationPolicy.denyAll rfl rfl

/-- C2 counterexample: after connect, `processReady`, a start-session
event for "sess-1" and then `processEnding`, the ready flag is `false`
yet `gameSessionId` is still `some "sess-1"` — the session id survives
the un-readiness transition, contradicting both the if-and-only-if and
the "defined only while ready" invariant. -/
theorem processEnding_keeps_activeSessionId :
    (runOps startThenEndTrace).processReadyFlag = false ∧
    (runOps startThenEndTrace).gameSessionId = some ("sess-1") :=
  ⟨rfl, rfl⟩

/-- C2 amended: over every trace of client operations, inbound events
and transport changes run from a fresh instance, `gameSessionId` is
defined if and only if some start-session event has been handled at any
point — no operation or event (in particular neither `processEnding` nor
`terminateGameSession`) ever clears it. -/
theorem activeSessionId_defined_iff_started (ops : List TraceOp) :
    (runOps ops).gameSessionId.isSome = true ↔
      ∃ sid, TraceOp.eventStartGameSession sid ∈ ops := by
  rw [runOps, foldl_gameSessionId_isSome ops initialState]
  simp [initialState]

/-- C3: `onStartGameSessionHandler` with the mandatory callback
registered: when not ready it acks `false` yet does not return early, so
it still stores the session id, synchronously invokes the user callback
and acks `true`; when ready it stores the id, invokes the callback and
acks `true` exactly once. -/
theorem onStartGameSessionHandler_behavior
    (s : GameLiftServerState) (sid : String)
    (hcb : s.onStartGameSessionRegistered = true) :
    (s.processReadyFlag = false →
      s.onStartGameSessionHandler sid =
        ({ s with gameSessionId := some sid },
          [HandlerEvent.ack false, HandlerEvent.invokeStartCallback sid,
            HandlerEvent.ack true])) ∧
    (s.processReadyFlag = true →
      s.onStartGameSessionHandler sid =
        ({ s with gameSessionId := some sid },
          [HandlerEvent.invokeStartCallback sid, HandlerEvent.ack true])) ∧
    (s.onStartGameSessionHandler sid).2.count (HandlerEvent.ack true) = 1 := by
  cases hf : s.processReadyFlag <;>
    simp [GameLiftServerState.onStartGameSessionHandler, hcb, hf,
      List.count_cons]

/-- C3 witness: the ready, registered state receiving session "sess-1". -/
theorem onStartGameSessionHandler_behavior_witness :
    (readyRegisteredState.processReadyFlag = false →
      readyRegisteredState.onStartGameSessionHandler ("sess-1") =
        ({ readyRegisteredState with gameSessionId := some ("sess-1") },
          [HandlerEvent.ack false, HandlerEvent.invokeStartCallback ("sess-1"),
            HandlerEvent.ack true])) ∧
    (readyRegisteredState.processReadyFlag = true →
      readyRegisteredState.onStartGameSessionHandler ("sess-1") =
        ({ readyRegisteredState with gameSessionId := some ("sess-1") },
          [HandlerEvent.invokeStartCallback ("sess-1"), HandlerEvent.ack true])) ∧
    (readyRegisteredState.onStartGameSessionHandler ("sess-1")).2.count
        (HandlerEvent.ack true) = 1 :=
  onStartGameSessionHandler_behavior readyRegisteredState ("sess-1") rfl

/-- C4: a success acknowledgment with an expected response type but no
payload rejects with `ServiceCallFailedError` whose constructor message
is "no response received" (so the full error text quotes it), and the
promise is not resolved. -/
theorem emit_success_no_payload_rejects :
    Network.emitAck true true none
        = Network.EmitOutcome.rejectedServiceCallFailed
            (some ("no response received")) ∧
    (Network.emitAck true true none).isServiceCallRejection = true ∧
    (Network.emitAck true true none).isResolved = false ∧
    Network.serviceCallFailedMessageText (some ("no response received"))
        = "GameLift service call failed: " ++ Network.sq
            ++ "no response received" ++ Network.sq :=
  ⟨rfl, rfl, rfl, rfl⟩

/-- C5 counterexample: a failure acknowledgment whose payload does not
decode (`JSON.parse` fails) does not reject with
`ServiceCallFailedError`: reading `.errorMessage` off the `null` parse
result throws a TypeError inside the callback, so the promise never
settles. -/
theorem emit_failure_undecodable_not_rejected :
    Network.emitAck true false (some RawResponse.malformed)
        = Network.EmitOutcome.uncaughtTypeError ∧
    (Network.emitAck true false (some RawResponse.malformed)).isServiceCallRejection
        = false :=
  ⟨rfl, rfl⟩

/-- C5 amended: a failure acknowledgment rejects with
`ServiceCallFailedError` when its payload is absent (generic message) or
decodes as an error envelope — and a decoded non-empty `errorMessage` is
quoted verbatim in the error text — but an undecodable non-absent
payload instead raises a TypeError inside the acknowledgment callback
and the promise never settles. -/
theorem emit_failure_rejects_or_throws
    (hasResp : Bool) (o : JsonObj) (m : String)
    (hmsg : o.errorMessage = some m) (hne : m ≠ "") :
    Network.emitAck hasResp false none
        = Network.EmitOutcome.rejectedServiceCallFailed none ∧
    Network.emitAck hasResp false (some (RawResponse.jsonObj o))
        = Network.EmitOutcome.rejectedServiceCallFailed (some m) ∧
    Network.serviceCallFailedMessageText (some m)
        = "GameLift service call failed: " ++ Network.sq ++ m ++ Network.sq ∧
    Network.emitAck hasResp false (some RawResponse.malformed)
        = Network.EmitOutcome.uncaughtTypeError := by
  refine ⟨rfl, ?_, ?_, rfl⟩
  · simp [Network.emitAck,
      Network.parseJsonDataIntoMessageGameLiftResponse, hmsg]
  · simp [Network.serviceCallFailedMessageText, String.isEmpty_iff, hne]

/-- C5 witness: the amended statement at the spec's scenario payload
`(false, (JSON with status ERROR_400 and errorMessage bad id))`. -/
theorem emit_failure_rejects_or_throws_witness :
    Network.emitAck true false none
        = Network.EmitOutcome.rejectedServiceCallFailed none ∧
    Network.emitAck true false (some (RawResponse.jsonObj badIdEnvelope))
        = Network.EmitOutcome.rejectedServiceCallFailed (some ("bad id")) ∧
    Network.serviceCallFailedMessageText (some ("bad id"))
        = "GameLift service call failed: " ++ Network.sq
            ++ "bad id" ++ Network.sq ∧
    Network.emitAck true false (some RawResponse.malformed)
        = Network.EmitOutcome.uncaughtTypeError :=
  emit_failure_rejects_or_throws true badIdEnvelope ("bad id") rfl
    (by decide)

/-- C6: in one `reportHealth` tick, if the health predicate settles with
a boolean before the deadline fires, that boolean is reported; if the
deadline fires first, `false` is reported whatever the predicate would
eventually produce — its late result is never the reported value. -/
theorem reportHealth_race (cadence : Nat) (env : HealthTickEnv) :
    (env.predDelay < cadence →
      ∀ b : Bool, env.predOutcome = HealthPredicateOutcome.resolves b →
        reportHealthReported cadence env = some b) ∧
    (cadence < env.predDelay →
      reportHealthReported cadence env = some false) := by
  constructor
  · intro h b hb
    simp [reportHealthReported, healthCheckRace, h, hb]
  · intro h
    have hn : ¬ env.predDelay < cadence := by omega
    simp [reportHealthReported, healthCheckRace, hn]

/-- C7: the health-monitor loop reports exactly once per tick over the
longest prefix of ticks that observe `ready == true`, and nothing after
the first tick that observes `ready == false` (the interval is cancelled
there); the continuation never depends on how the predicate or the
report call settled, so a caught error never stops future ticks. -/
theorem healthCheck_loop (cadence : Nat) (ticks : List MonitorTick) :
    healthCheckRun cadence ticks =
      (ticks.takeWhile (fun t => t.ready)).map
        (fun t => reportHealthReported cadence t.env) := by
  induction ticks with
  | nil => rfl
  | cons t rest ih =>
    by_cases h : t.ready = true
    · simp [healthCheckRun, List.takeWhile_cons, h, ih]
    · simp [healthCheckRun, List.takeWhile_cons, h]

/-- C8: evaluating the terminate-process dispatch at an undecodable
payload: `parseJsonDataIntoMessage` swallows the parse failure and
returns `null` (never an exception), so the `catch` that would
substitute `now + 4.5 minutes` is dead and the dispatch throws a
TypeError off the `null` message instead of invoking the handler. -/
theorem terminateProcess_undecodable_throws :
    Network.onTerminateProcessDispatch 1700000000000 RawResponse.malformed
        = Network.TerminateDispatchOutcome.threwTypeError ∧
    Network.parseJsonDataIntoMessageTerminateProcess RawResponse.malformed
        = Except.ok none :=
  ⟨rfl, rfl⟩

/-- C9: `terminateGameSession` with a connected transport and an active
session sends exactly one termination notice tagged with the current
session id and returns the state completely unchanged; without a
connection it fails with the transport-not-initialized error, and
without a session id it fails with `NoGameSessionError` — in every case
the state is returned as-is. -/
theorem terminateGameSession_spec (s : GameLiftServerState) :
    (s.assertNetworkInitialized = false →
      s.terminateGameSession
        = (s, Except.error GameLiftError.gameLiftServerNotInitError)) ∧
    (s.assertNetworkInitialized = true → isFalsyStr s.gameSessionId = true →
      s.terminateGameSession = (s, Except.error GameLiftError.noGameSession)) ∧
    (∀ sid : String, s.assertNetworkInitialized = true →
      s.gameSessionId = some sid → sid ≠ "" →
      s.terminateGameSession
        = (s, Except.ok [OutMsg.gameSessionTerminate sid])) := by
  refine ⟨?_, ?_, ?_⟩
  · intro h
    simp [GameLiftServerState.terminateGameSession, h]
  · intro h1 h2
    simp [GameLiftServerState.terminateGameSession, h1, h2]
  · intro sid h1 h2 h3
    simp [GameLiftServerState.terminateGameSession, h1, h2, isFalsyStr,
      String.isEmpty_iff, h3]

/-- C10: `processReady` sets the ready flag and stores the four
callbacks (defaulting `onHealthCheck`) before checking the transport, so
when the transport is absent or disconnected the call throws the
transport-not-initialized error yet leaves the instance marked ready
with all callbacks registered and the health monitor not started; a
subsequent `activateGameSession` on a connected transport then does not
raise `ProcessNotReadyError`. -/
theorem processReady_mutates_before_validation
    (s : GameLiftServerState) (p : GameLiftServerState.ProcessParameters)
    (ackOk : Bool)
    (hnet : s.assertNetworkInitialized = false)
    (hmon : s.healthMonitorStarted = false) :
    (s.processReady p ackOk).2
        = Except.error GameLiftError.gameLiftServerNotInitError ∧
    (s.processReady p ackOk).1.processReadyFlag = true ∧
    (s.processReady p ackOk).1.onStartGameSessionRegistered = true ∧
    (s.processReady p ackOk).1.onHealthCheckRegistered = true ∧
    (s.processReady p ackOk).1.onUpdateGameSessionRegistered
        = p.hasOnUpdateGameSession ∧
    (s.processReady p ackOk).1.onProcessTerminateRegistered
        = p.hasOnProcessTerminate ∧
    (s.processReady p ackOk).1.healthMonitorStarted = false ∧
    ({ (s.processReady p ackOk).1 with
        networkingIsSet := true, socketConnected := true
      }).activateGameSession.2
      ≠ Except.error GameLiftError.processNotReady := by
  have hstep : s.processReady p ackOk
      = ({ s with
            processReadyFlag := true
            onStartGameSessionRegistered := true
            onUpdateGameSessionRegistered := p.hasOnUpdateGameSession
            onProcessTerminateRegistered := p.hasOnProcessTerminate
            onHealthCheckRegistered := true },
          Except.error GameLiftError.gameLiftServerNotInitError) := by
    have hnet2 : ({ s with
        processReadyFlag := true
        onStartGameSessionRegistered := true
        onUpdateGameSessionRegistered := p.hasOnUpdateGameSession
        onProcessTerminateRegistered := p.hasOnProcessTerminate
        onHealthCheckRegistered := true
      } : GameLiftServerState).assertNetworkInitialized = false := hnet
    simp [GameLiftServerState.processReady, hnet2]
  refine ⟨by rw [hstep], by rw [hstep], by rw [hstep], by rw [hstep],
    by rw [hstep], by rw [hstep], by rw [hstep]; exact hmon, ?_⟩
  rw [hstep]
  by_cases hs : isFalsyStr s.gameSessionId = true <;>
    · intro h
      simp [GameLiftServerState.activateGameSession,
        GameLiftServerState.assertNetworkInitialized, hs] at h

/-- C10 witness: a fresh, never-connected instance readied with the
minimal parameters. -/
theorem processReady_mutates_before_validation_witness :
    (initialState.processReady sampleParams true).2
        = Except.error GameLiftError.gameLiftServerNotInitError ∧
    (initialState.processReady sampleParams true).1.processReadyFlag = true ∧
    (initialState.processReady sampleParams true).1.onStartGameSessionRegistered
        = true ∧
    (initialState.processReady sampleParams true).1.onHealthCheckRegistered
        = true ∧
    (initialState.processReady sampleParams true).1.onUpdateGameSessionRegistered
        = sampleParams.hasOnUpdateGameSession ∧
    (initialState.processReady sampleParams true).1.onProcessTerminateRegistered
        = sampleParams.hasOnProcessTerminate ∧
    (initialState.processReady sampleParams true).1.healthMonitorStarted
        = false ∧
    ({ (initialState.processReady sampleParams true).1 with
        networkingIsSet := true, socketConnected := true
      }).activateGameSession.2
      ≠ Except.error GameLiftError.processNotReady :=
  processReady_mutates_before_validation initialState sampleParams true rfl rfl

end GameLift

